import Mathlib

set_option maxRecDepth 100000

/-!
Shallow embedding of `spotify-to-gpm.py`: the extraction pipeline
(`get_longest_script_seq`, `get_dict_from_script_seq`, the `demjson.decode`
call and the dictionary walk in `main`), the metadata extraction, the
plain-output branch, and the Google-Play-Music publishing loop
(`gmusic_search`, the `song_id_list` loop, `gmusic_create_new_playlist`,
`gmusic_add_to_playlist`).  Strings are modelled as `List Char`; Python
exceptions are modelled as `Except.error` carrying the exception rendered
as a string (`"KeyError: k"`, `"TypeError: ..."`, `"ValueError: ..."`).
-/

/-- Characters of the opening script delimiter of the regex
`<script>(.*?)</script>` used in `get_longest_script_seq`. -/
def openTag : List Char := "<script>".data

/-- Characters of the closing script delimiter. -/
def closeTag : List Char := "</script>".data

/-- Index of the first occurrence of `pat` as a contiguous sublist of `s`,
if any (leftmost-match semantics of Python regex / `str.find`). -/
def firstOccur (pat : List Char) : List Char → Option Nat
  | [] => if pat.isEmpty then some 0 else none
  | c :: t => if pat.isPrefixOf (c :: t) then some 0 else (firstOccur pat t).map (· + 1)

/-- Whether `pat` occurs as a contiguous sublist of `s`. -/
def containsSub (pat s : List Char) : Bool := (firstOccur pat s).isSome

/-- Fuel-indexed scan embedding `re.findall(r'<script>(.*?)<\/script>', html, MULTILINE|DOTALL)`:
repeatedly find the leftmost `<script>`, then the first `</script>` after it
(non-greedy capture), emit the captured content, and continue after the
close tag. -/
def findScriptsF : Nat → List Char → List (List Char)
  | 0, _ => []
  | n+1, s =>
    match firstOccur openTag s with
    | none => []
    | some i =>
      let rest := s.drop (i + openTag.length)
      match firstOccur closeTag rest with
      | none => []
      | some j => rest.take j :: findScriptsF n (rest.drop (j + closeTag.length))

/-- All captured script-block contents of an HTML document, in document
order (the fuel `s.length + 1` is ample: every match consumes at least the
two delimiters). -/
def findScripts (s : List Char) : List (List Char) := findScriptsF (s.length + 1) s

/-- Python `max(matches, key=len)`: raises on the empty list, otherwise a
left fold that replaces the current maximum only on a strictly greater
length — hence the first maximum wins a tie. -/
def pyMax : List (List Char) → Option (List Char)
  | [] => none
  | h :: t => some (t.foldl (fun acc x => if acc.length < x.length then x else acc) h)

/-- Embedding of `get_longest_script_seq` (lines 27-31): `re.findall` then
`max(matches, key=len)`.  On zero matches Python's `max` raises
`ValueError: max() arg is an empty sequence`. -/
def get_longest_script_seq (html : List Char) : Except String (List Char) :=
  match pyMax (findScripts html) with
  | none => Except.error "ValueError: max() arg is an empty sequence"
  | some m => Except.ok m

/-- Python `str.split('\n')` (so `"".split('\n') == [""]`). -/
def splitNL : List Char → List (List Char)
  | [] => [[]]
  | c :: t =>
    if c = '\n' then [] :: splitNL t
    else
      match splitNL t with
      | [] => [[c]]
      | h :: r => (c :: h) :: r

/-- The loop of lines 35-38: start from `""`, replace only when strictly
longer, so the first longest line wins a tie. -/
def longestLineOf (lines : List (List Char)) : List Char :=
  lines.foldl (fun acc i => if acc.length < i.length then i else acc) []

/-- The separator `' = '` of line 39. -/
def eqSep : List Char := " = ".data

/-- Fuel-indexed Python `str.split(sep)` for a non-empty separator:
split on every non-overlapping occurrence, left to right. -/
def splitOnSubF : Nat → List Char → List Char → List (List Char)
  | 0, _, s => [s]
  | n+1, sep, s =>
    match firstOccur sep s with
    | none => [s]
    | some i => s.take i :: splitOnSubF n sep (s.drop (i + sep.length))

/-- `str.split(' = ')` on a line (fuel `length + 1` is ample: each split
consumes the separator). -/
def splitEq (s : List Char) : List (List Char) := splitOnSubF (s.length + 1) eqSep s

/-- Embedding of `get_dict_from_script_seq` (lines 33-42): take the longest
line of the script contents, split on `' = '`, rejoin everything after the
first occurrence, and drop the final character (`[:-1]`, the trailing
semicolon; Python slicing of the empty string yields the empty string, as
does `List.dropLast`). -/
def get_dict_from_script_seq (sc : List Char) : List Char :=
  let ll := longestLineOf (splitNL sc)
  (List.intercalate eqSep ((splitEq ll).drop 1)).dropLast


/-- Values of the parsed data blob: the subset of Python values that
`demjson.decode` produces (null, booleans, integers, strings, lists,
dicts as insertion-ordered key/value lists). -/
inductive Jval where
  | jnull : Jval
  | jbool : Bool → Jval
  | jnum : Int → Jval
  | jstr : String → Jval
  | jarr : List Jval → Jval
  | jobj : List (String × Jval) → Jval

/-- Render of a Python `KeyError` for key `k`. -/
def keyErr (k : String) : String := "KeyError: " ++ k

/-- Render of a Python `TypeError` with message `m`. -/
def typeErr (m : String) : String := "TypeError: " ++ m

/-- Python dict lookup on the insertion-ordered pair list: with duplicate
keys the later binding wins (as in a Python dict built left to right). -/
def lookupLast (o : List (String × Jval)) (k : String) : Option Jval :=
  o.foldl (fun acc p => if p.1 = k then some p.2 else acc) none

/-- Python subscript `v[k]` with a string key: a dict yields the value or
raises `KeyError: k`; strings, lists and other values raise `TypeError`. -/
def jGet : Jval → String → Except String Jval
  | .jobj o, k =>
    match lookupLast o k with
    | some v => Except.ok v
    | none => Except.error (keyErr k)
  | .jstr _, _ => Except.error (typeErr "string indices must be integers")
  | .jarr _, _ => Except.error (typeErr "list indices must be integers")
  | _, _ => Except.error (typeErr "object is not subscriptable")

/-- Python iteration `for x in v`: lists yield their elements, strings
their one-character strings, dicts their keys; other values raise
`TypeError`. -/
def pyIter : Jval → Except String (List Jval)
  | .jarr l => Except.ok l
  | .jstr s => Except.ok (s.data.map (fun c => Jval.jstr (String.mk [c])))
  | .jobj o => Except.ok (o.map (fun p => Jval.jstr p.1))
  | _ => Except.error (typeErr "object is not iterable")

/-- The left brace character (code point 123). -/
def lbrace : Char := Char.ofNat 123

/-- The right brace character (code point 125). -/
def rbrace : Char := Char.ofNat 125

/-- JSON whitespace. -/
def isWsChar (c : Char) : Bool := c = ' ' || c = '\t' || c = '\n' || c = '\r'

/-- Drop leading whitespace. -/
def skipWs (s : List Char) : List Char := s.dropWhile isWsChar

/-- Characters allowed in an unquoted (relaxed-JSON) identifier. -/
def isIdentChar (c : Char) : Bool := c.isAlphanum || c = '_' || c = '$'

/-- Characters that may start an unquoted identifier. -/
def isIdentStart (c : Char) : Bool := c.isAlpha || c = '_' || c = '$'

/-- Rest of a double-quoted string after the opening quote, handling the
common backslash escapes; `none` on an unterminated literal. -/
def parseStrRest : List Char → Option (List Char × List Char)
  | [] => none
  | c :: r =>
    if c = '"' then some ([], r)
    else if c = '\\' then
      match r with
      | [] => none
      | e :: r2 =>
        let ec := if e = 'n' then '\n' else if e = 't' then '\t' else if e = 'r' then '\r' else e
        (parseStrRest r2).map (fun p => (ec :: p.1, p.2))
    else (parseStrRest r).map (fun p => (c :: p.1, p.2))

/-- Decimal digits to a natural number. -/
def digitsToNat (ds : List Char) : Nat :=
  ds.foldl (fun n c => n * 10 + (c.toNat - 48)) 0

mutual

/-- Fuel-indexed recursive-descent parser for the relaxed-JSON fragment
`demjson.decode` accepts on this data (null/true/false, integers, quoted
strings, arrays, and objects whose keys may be quoted strings or bare
identifiers).  Returns the value and the unconsumed remainder. -/
def parseVal : Nat → List Char → Except String (Jval × List Char)
  | 0, _ => Except.error "demjson.JSONDecodeError: input too deep"
  | n+1, s0 =>
    match skipWs s0 with
    | [] => Except.error "demjson.JSONDecodeError: no value"
    | c :: r =>
      if c = '"' then
        match parseStrRest r with
        | some (cs, rest) => Except.ok (Jval.jstr (String.mk cs), rest)
        | none => Except.error "demjson.JSONDecodeError: unterminated string"
      else if c = '[' then
        match parseArrRest n r with
        | Except.ok (vs, rest) => Except.ok (Jval.jarr vs, rest)
        | Except.error e => Except.error e
      else if c = lbrace then
        match parseObjRest n r with
        | Except.ok (kvs, rest) => Except.ok (Jval.jobj kvs, rest)
        | Except.error e => Except.error e
      else if c = '-' || c.isDigit then
        let ds := if c = '-' then r else c :: r
        let digits := ds.takeWhile Char.isDigit
        let rest := ds.dropWhile Char.isDigit
        if digits.isEmpty then Except.error "demjson.JSONDecodeError: bad number"
        else
          let v : Int := Int.ofNat (digitsToNat digits)
          Except.ok (Jval.jnum (if c = '-' then -v else v), rest)
      else if isIdentStart c then
        let word := (c :: r).takeWhile isIdentChar
        let rest := (c :: r).dropWhile isIdentChar
        if word = "true".data then Except.ok (Jval.jbool true, rest)
        else if word = "false".data then Except.ok (Jval.jbool false, rest)
        else if word = "null".data then Except.ok (Jval.jnull, rest)
        else Except.error "demjson.JSONDecodeError: unexpected identifier"
      else Except.error "demjson.JSONDecodeError: unexpected character"

/-- Elements of an array after the opening bracket. -/
def parseArrRest : Nat → List Char → Except String (List Jval × List Char)
  | 0, _ => Except.error "demjson.JSONDecodeError: input too deep"
  | n+1, s0 =>
    match skipWs s0 with
    | ']' :: r => Except.ok ([], r)
    | s =>
      match parseVal n s with
      | Except.error e => Except.error e
      | Except.ok (v, s1) =>
        match skipWs s1 with
        | ',' :: r =>
          match parseArrRest n r with
          | Except.error e => Except.error e
          | Except.ok (vs, s2) => Except.ok (v :: vs, s2)
        | ']' :: r => Except.ok ([v], r)
        | _ => Except.error "demjson.JSONDecodeError: expected comma or close bracket"

/-- Members of an object after the opening brace. -/
def parseObjRest : Nat → List Char → Except String (List (String × Jval) × List Char)
  | 0, _ => Except.error "demjson.JSONDecodeError: input too deep"
  | n+1, s0 =>
    match skipWs s0 with
    | [] => Except.error "demjson.JSONDecodeError: unterminated object"
    | c :: r =>
      if c = rbrace then Except.ok ([], r)
      else
        match
          (if c = '"' then
            match parseStrRest r with
            | some (cs, rest) => Except.ok (String.mk cs, rest)
            | none => Except.error "demjson.JSONDecodeError: unterminated string"
          else if isIdentStart c then
            Except.ok (String.mk ((c :: r).takeWhile isIdentChar), (c :: r).dropWhile isIdentChar)
          else (Except.error "demjson.JSONDecodeError: bad object key" :
              Except String (String × List Char))) with
        | Except.error e => Except.error e
        | Except.ok (k, s1) =>
          match skipWs s1 with
          | ':' :: r2 =>
            match parseVal n r2 with
            | Except.error e => Except.error e
            | Except.ok (v, s3) =>
              match skipWs s3 with
              | ',' :: r3 =>
                match parseObjRest n r3 with
                | Except.error e => Except.error e
                | Except.ok (kvs, s4) => Except.ok ((k, v) :: kvs, s4)
              | c2 :: r3 =>
                if c2 = rbrace then Except.ok ([(k, v)], r3)
                else Except.error "demjson.JSONDecodeError: expected comma or close brace"
              | [] => Except.error "demjson.JSONDecodeError: unterminated object"
          | _ => Except.error "demjson.JSONDecodeError: expected colon"

end

/-- Embedding of `demjson.decode` on line 93: parse one value and require
that nothing but whitespace remains. -/
def demjson_decode (s : List Char) : Except String Jval :=
  match parseVal (s.length + 1) s with
  | Except.error e => Except.error e
  | Except.ok (v, rest) =>
    if (skipWs rest).isEmpty then Except.ok v
    else Except.error "demjson.JSONDecodeError: extra data after value"

/-- The apostrophe character (code point 39), used by Python `repr` of a
string. -/
def apos : Char := Char.ofNat 39

/-- Fuel-indexed Python `repr` of a parsed value (containers render their
elements with `repr`, strings get single quotes). -/
def pyReprF : Nat → Jval → String
  | 0, _ => ""
  | _+1, Jval.jnull => "None"
  | _+1, Jval.jbool b => if b then "True" else "False"
  | _+1, Jval.jnum n => toString n
  | _+1, Jval.jstr s => String.mk (apos :: s.data ++ [apos])
  | n+1, Jval.jarr l => "[" ++ String.intercalate ", " (l.map (pyReprF n)) ++ "]"
  | n+1, Jval.jobj o =>
      String.mk [lbrace] ++
        String.intercalate ", "
          (o.map (fun p => String.mk (apos :: p.1.data ++ [apos]) ++ ": " ++ pyReprF n p.2)) ++
        String.mk [rbrace]

mutual

/-- Nesting depth of a parsed value (for the `repr` fuel). -/
def jvalDepth : Jval → Nat
  | Jval.jarr l => jarrDepth l + 1
  | Jval.jobj o => jobjDepth o + 1
  | _ => 1

/-- Greatest nesting depth of a list of parsed values. -/
def jarrDepth : List Jval → Nat
  | [] => 0
  | x :: t => max (jvalDepth x) (jarrDepth t)

/-- Greatest nesting depth of the values of a key/value list. -/
def jobjDepth : List (String × Jval) → Nat
  | [] => 0
  | (_, v) :: t => max (jvalDepth v) (jobjDepth t)

end

/-- Python `str` of a parsed value, as used by `"...".format(...)`:
strings render as their content, everything else as its `repr` (the fuel
exceeds the value's depth, so it never runs out). -/
def pyStr (v : Jval) : String :=
  match v with
  | Jval.jstr s => s
  | Jval.jnum n => toString n
  | Jval.jnull => "None"
  | Jval.jbool b => if b then "True" else "False"
  | v => pyReprF (jvalDepth v) v

/-- Python truthiness of a parsed value, as used by the `if` tests in
`gmusic_create_new_playlist`. -/
def pyTruthy : Jval → Bool
  | Jval.jnull => false
  | Jval.jbool b => b
  | Jval.jnum n => n != 0
  | Jval.jstr s => s != ""
  | Jval.jarr l => !l.isEmpty
  | Jval.jobj o => !o.isEmpty

/-- A record of the playlist loop of lines 95-103: the tuple
`(track_name, ', '.join(artists), album_name)` — the name and album are
whatever values the blob held, the artist field is the joined string. -/
def TrackT : Type := Jval × String × Jval

/-- Python `', '.join(items)` checking each element in order: the first
non-string element raises `TypeError` naming its position. -/
def joinCommaFrom : Nat → List Jval → Except String String
  | _, [] => Except.ok ""
  | i, x :: t =>
    match x with
    | Jval.jstr s =>
      match t with
      | [] => Except.ok s
      | _ =>
        match joinCommaFrom (i+1) t with
        | Except.error e => Except.error e
        | Except.ok r => Except.ok (s ++ ", " ++ r)
    | _ => Except.error (typeErr ("sequence item " ++ toString i ++ ": expected str instance"))

/-- The inner loop of lines 99-101: collect `artist['name']` for each
artist envelope, in order, aborting on the first lookup failure. -/
def namesOfArtists : List Jval → Except String (List Jval)
  | [] => Except.ok []
  | a :: t =>
    match jGet a "name" with
    | Except.error e => Except.error e
    | Except.ok n =>
      match namesOfArtists t with
      | Except.error e => Except.error e
      | Except.ok rest => Except.ok (n :: rest)

/-- The body of the playlist loop (lines 97-103) for one envelope `item`:
`item['track']['name']`, `item['track']['album']['name']`, the artist
names in order, and the tuple appended to the playlist. -/
def trackOfItem (item : Jval) : Except String TrackT :=
  match jGet item "track" with
  | Except.error e => Except.error e
  | Except.ok tr =>
    match jGet tr "name" with
    | Except.error e => Except.error e
    | Except.ok trackName =>
      match jGet tr "album" with
      | Except.error e => Except.error e
      | Except.ok alb =>
        match jGet alb "name" with
        | Except.error e => Except.error e
        | Except.ok albumName =>
          match jGet tr "artists" with
          | Except.error e => Except.error e
          | Except.ok artistsV =>
            match pyIter artistsV with
            | Except.error e => Except.error e
            | Except.ok artistEnvs =>
              match namesOfArtists artistEnvs with
              | Except.error e => Except.error e
              | Except.ok names =>
                match joinCommaFrom 0 names with
                | Except.error e => Except.error e
                | Except.ok joined => Except.ok (trackName, joined, albumName)

/-- The playlist loop of lines 95-103: build one tuple per envelope, in
source order, aborting on the first per-item failure. -/
def playlistOf : List Jval → Except String (List TrackT)
  | [] => Except.ok []
  | it :: t =>
    match trackOfItem it with
    | Except.error e => Except.error e
    | Except.ok tr =>
      match playlistOf t with
      | Except.error e => Except.error e
      | Except.ok rest => Except.ok (tr :: rest)

/-- The iterable of line 96: `raw['tracks']['items']` made iterable. -/
def getItems (raw : Jval) : Except String (List Jval) :=
  match jGet raw "tracks" with
  | Except.error e => Except.error e
  | Except.ok tracks =>
    match jGet tracks "items" with
    | Except.error e => Except.error e
    | Except.ok items => pyIter items

/-- The walk of lines 95-103 from the parsed blob to the playlist. -/
def walkTracks (raw : Jval) : Except String (List TrackT) :=
  match getItems raw with
  | Except.error e => Except.error e
  | Except.ok items => playlistOf items

/-- The metadata step of lines 105-108: `raw['description']` then
`raw['external_urls']['spotify']`, collected in that order. -/
def getMetadata (raw : Jval) : Except String (Jval × Jval) :=
  match jGet raw "description" with
  | Except.error e => Except.error e
  | Except.ok d =>
    match jGet raw "external_urls" with
    | Except.error e => Except.error e
    | Except.ok eu =>
      match jGet eu "spotify" with
      | Except.error e => Except.error e
      | Except.ok sp => Except.ok (d, sp)

/-- The extraction pipeline of lines 91-108 on the raw HTML text: longest
script block, literal isolation, `demjson.decode`, the playlist walk and
the metadata step. -/
def extract (html : String) : Except String (List TrackT × (Jval × Jval)) :=
  match get_longest_script_seq html.data with
  | Except.error e => Except.error e
  | Except.ok sc =>
    match demjson_decode (get_dict_from_script_seq sc) with
    | Except.error e => Except.error e
    | Except.ok raw =>
      match walkTracks raw with
      | Except.error e => Except.error e
      | Except.ok pl =>
        match getMetadata raw with
        | Except.error e => Except.error e
        | Except.ok meta => Except.ok (pl, meta)

/-- The track part of the pipeline (lines 91-103). -/
def extractTracks (html : String) : Except String (List TrackT) :=
  match get_longest_script_seq html.data with
  | Except.error e => Except.error e
  | Except.ok sc =>
    match demjson_decode (get_dict_from_script_seq sc) with
    | Except.error e => Except.error e
    | Except.ok raw => walkTracks raw

/-- The extraction pipeline with the ambient logger state made explicit:
each helper appends its `LOG.debug` line to the log it receives, and the
pair of extraction result and final log is returned. -/
def extractLog (html : String) (log : List String) :
    Except String (List TrackT × (Jval × Jval)) × List String :=
  let log1 := log ++ ["Finding longest <script>...</script> sequence in Spotify HTML"]
  match pyMax (findScripts html.data) with
  | none => (Except.error "ValueError: max() arg is an empty sequence", log1)
  | some sc =>
    let log2 := log1 ++ ["Getting the relevant dictionary from the script sequence"]
    (match demjson_decode (get_dict_from_script_seq sc) with
      | Except.error e => Except.error e
      | Except.ok raw =>
        match walkTracks raw with
        | Except.error e => Except.error e
        | Except.ok pl =>
          match getMetadata raw with
          | Except.error e => Except.error e
          | Except.ok meta => Except.ok (pl, meta), log2)

/-- One printed line of the plain-output loop (line 118):
`"{} | {} | {}".format(track[0], track[1], track[2])`. -/
def fmtTrack (t : TrackT) : String := pyStr t.1 ++ " | " ++ t.2.1 ++ " | " ++ pyStr t.2.2

/-- The search string of line 129: `"{} {}".format(track[0], track[1])`. -/
def mkQuery (t : TrackT) : String := pyStr t.1 ++ " " ++ t.2.1

/-- Embedding of `gmusic_search` (lines 57-63) against a search oracle
giving the ranked `song_hits` store ids for a query: the store id of the
first hit, or `none` when the `IndexError` on an empty hit list is caught
(the function then falls through and returns Python `None`). -/
def gmusic_search (oracle : String → List String) (q : String) : Option String :=
  (oracle q).head?

/-- The search loop of lines 126-130: start from the empty list and append
the (possibly absent) store id found for each track, in source order. -/
def song_id_list (oracle : String → List String) (tracks : List TrackT) : List (Option String) :=
  tracks.foldl (fun acc t => acc ++ [gmusic_search oracle (mkQuery t)]) []

/-- The description built by `gmusic_create_new_playlist` (lines 65-70),
with `__name__` equal to `"__main__"` for a script run. -/
def gmusic_new_playlist_desc (url desc : Jval) : String :=
  let d0 := "Auto-generated by __main__."
  let d1 := if pyTruthy url then d0 ++ "\nOriginal Spotify URL: " ++ pyStr url else d0
  if pyTruthy desc then d1 ++ "\nOriginal Spotify description: " ++ pyStr desc else d1

/-- One call to the external Google Play Music client. -/
inductive GCall where
  | login (user pw : String)
  | search (q : String)
  | createPlaylist (nm desc : String)
  | addSongs (pid : String) (ids : List (Option String))

/-- The sequence of external-service calls in the non-plain branch of
`main` (lines 124-135): login, one search per track in source order, one
playlist creation, then the single `add_songs_to_playlist` call receiving
the whole `song_id_list`. -/
def gmusicCalls (oracle : String → List String) (tracks : List TrackT)
    (u p nm : String) (meta : Jval × Jval) (pid : String) : List GCall :=
  GCall.login u p ::
    (tracks.map (fun t => GCall.search (mkQuery t)) ++
      [GCall.createPlaylist nm (gmusic_new_playlist_desc meta.2 meta.1),
       GCall.addSongs pid (song_id_list oracle tracks)])

/-- Embedding of `main` (lines 80-137) after the source text has been read:
extraction, then either the plain-output branch (lines 115-118, returning
the printed lines and an empty call trace) or the publishing branch
(credential check, login, searches, creation, batch add).  `sys.exit(1)`
is modelled as `SystemExit: 1`; a failed login also exits. -/
def pymain (spotify_raw : String) (only_spotify : Bool)
    (g_user g_pass new_playlist_name : Option String)
    (loginOk : Bool) (oracle : String → List String) (pid : String) :
    Except String (List String × List GCall) :=
  match extract spotify_raw with
  | Except.error e => Except.error e
  | Except.ok (pl, meta) =>
    if only_spotify then
      Except.ok ("TRACK | ARTIST | ALBUM" :: pl.map fmtTrack, [])
    else
      match g_user, g_pass, new_playlist_name with
      | some u, some p, some nm =>
        if loginOk then Except.ok ([], gmusicCalls oracle pl u p nm meta pid)
        else Except.error "SystemExit: 1"
      | _, _, _ => Except.error "SystemExit: 1"

/-- The end-to-end scenario input: the spec's JSON blob embedded in a
script tag as an assignment statement. -/
def htmlOneTrack : String :=
  "<script>foo = \x7b\"tracks\":\x7b\"items\":[\x7b\"track\":\x7b\"name\":\"A\",\"album\":\x7b\"name\":\"B\"\x7d,\"artists\":[\x7b\"name\":\"C\"\x7d]\x7d\x7d]\x7d,\"description\":\"d\",\"external_urls\":\x7b\"spotify\":\"u\"\x7d\x7d;</script>"

/-- The script-block content of `htmlOneTrack`. -/
def scriptOneTrack : List Char :=
  "foo = \x7b\"tracks\":\x7b\"items\":[\x7b\"track\":\x7b\"name\":\"A\",\"album\":\x7b\"name\":\"B\"\x7d,\"artists\":[\x7b\"name\":\"C\"\x7d]\x7d\x7d]\x7d,\"description\":\"d\",\"external_urls\":\x7b\"spotify\":\"u\"\x7d\x7d;".data

/-- The parsed blob of the end-to-end scenario. -/
def rawOneTrack : Jval :=
  Jval.jobj
    [("tracks", Jval.jobj
        [("items", Jval.jarr
            [Jval.jobj
                [("track", Jval.jobj
                    [("name", Jval.jstr "A"),
                     ("album", Jval.jobj [("name", Jval.jstr "B")]),
                     ("artists", Jval.jarr [Jval.jobj [("name", Jval.jstr "C")]])])]])]),
     ("description", Jval.jstr "d"),
     ("external_urls", Jval.jobj [("spotify", Jval.jstr "u")])]

/-- The playlist the end-to-end scenario extracts. -/
def playlistOneTrack : List TrackT := [(Jval.jstr "A", "C", Jval.jstr "B")]

/-- A synthetic document with script blocks of content lengths 10, 50 and
30 (the spec's tie-break/selection scenario). -/
def htmlThreeBlocks : String :=
  "<script>aaaaaaaaaa</script><script>bbbbbbbbbbbbbbbbbbbbbbbbbbbbbbbbbbbbbbbbbbbbbbbbbb</script><script>cccccccccccccccccccccccccccccc</script>"

/-- The 50-character block content of `htmlThreeBlocks`. -/
def block50 : List Char := "bbbbbbbbbbbbbbbbbbbbbbbbbbbbbbbbbbbbbbbbbbbbbbbbbb".data


/-- A top-level blob with tracks but no `description` key, embedded in a
script tag. -/
def htmlNoDesc : String := "<script>x = \x7b\"tracks\":\x7b\"items\":[]\x7d\x7d;</script>"

/-- The parsed blob of `htmlNoDesc`. -/
def rawNoDesc : Jval := Jval.jobj [("tracks", Jval.jobj [("items", Jval.jarr [])])]

/-- A blob whose single item has an `album` object that lacks the `name`
key (the expected path `album.name` is missing one level down). -/
def rawNoAlbumName : Jval :=
  Jval.jobj
    [("tracks", Jval.jobj
        [("items", Jval.jarr
            [Jval.jobj
                [("track", Jval.jobj
                    [("name", Jval.jstr "T"),
                     ("album", Jval.jobj []),
                     ("artists", Jval.jarr [])])]])])]

/-- A first extracted track whose search will miss. -/
def cexTrackA : TrackT := (Jval.jstr "n1", "a1", Jval.jstr "al1")

/-- A second extracted track whose search will hit. -/
def cexTrackB : TrackT := (Jval.jstr "n2", "a2", Jval.jstr "al2")

/-- A two-track playlist for the publishing scenarios. -/
def cexTracks : List TrackT := [cexTrackA, cexTrackB]

/-- A search oracle with zero hits for the first track's query and one hit
(store id `X`) for the second track's query. -/
def cexOracle : String → List String := fun q => if q = "n2 a2" then ["X"] else []


/-- Characterisation of the Python `max(_, key=len)` fold: the result
splits the list into a strictly-shorter prefix, the result itself, and a
no-longer suffix — i.e. it is the first element of maximal length. -/
theorem pyMaxFold_spec (t : List (List Char)) :
    ∀ h : List Char,
      ∃ l1 l2,
        h :: t = l1 ++ (t.foldl (fun acc x => if acc.length < x.length then x else acc) h) :: l2 ∧
        (∀ x ∈ l1,
          x.length < (t.foldl (fun acc x => if acc.length < x.length then x else acc) h).length) ∧
        (∀ x ∈ h :: t,
          x.length ≤ (t.foldl (fun acc x => if acc.length < x.length then x else acc) h).length) := by
  induction t with
  | nil =>
    intro h
    exact ⟨[], [], rfl, by simp, by simp⟩
  | cons x t ih =>
    intro h
    simp only [List.foldl_cons]
    by_cases hlt : h.length < x.length
    · rw [if_pos hlt]
      obtain ⟨l1, l2, hdec, hsmall, hmax⟩ := ih x
      refine ⟨h :: l1, l2, ?_, ?_, ?_⟩
      · rw [List.cons_append, ← hdec]
      · intro y hy
        rcases List.mem_cons.mp hy with hyh | hyl
        · subst hyh
          exact lt_of_lt_of_le hlt (hmax x (List.mem_cons_self _ _))
        · exact hsmall y hyl
      · intro y hy
        rcases List.mem_cons.mp hy with hyh | hyl
        · subst hyh
          exact le_of_lt (lt_of_lt_of_le hlt (hmax x (List.mem_cons_self _ _)))
        · exact hmax y hyl
    · rw [if_neg hlt]
      obtain ⟨l1, l2, hdec, hsmall, hmax⟩ := ih h
      push_neg at hlt
      cases l1 with
      | nil =>
        rw [List.nil_append] at hdec
        injection hdec with hhr htl
        refine ⟨[], x :: t, ?_, by simp, ?_⟩
        · rw [List.nil_append, ← hhr]
        · intro y hy
          rcases List.mem_cons.mp hy with hyh | hyl
          · rw [hyh]
            exact hmax h (List.mem_cons_self _ _)
          · rcases List.mem_cons.mp hyl with hyx | hyt
            · rw [hyx]
              calc x.length ≤ h.length := hlt
                _ ≤ _ := hmax h (List.mem_cons_self _ _)
            · exact hmax y (List.mem_cons_of_mem _ hyt)
      | cons a l1' =>
        rw [List.cons_append] at hdec
        injection hdec with hha htl
        have hah : a.length <
            (t.foldl (fun acc x => if acc.length < x.length then x else acc) h).length :=
          hsmall a (List.mem_cons_self _ _)
        have hhlen : h.length = a.length := by rw [hha]
        refine ⟨h :: x :: l1', l2, ?_, ?_, ?_⟩
        · conv_lhs => rw [htl]
          rfl
        · intro y hy
          rcases List.mem_cons.mp hy with hyh | hyl
          · rw [hyh, hhlen]
            exact hah
          · rcases List.mem_cons.mp hyl with hyx | hyl'
            · rw [hyx]
              calc x.length ≤ h.length := hlt
                _ = a.length := hhlen
                _ < _ := hah
            · exact hsmall y (List.mem_cons_of_mem _ hyl')
        · intro y hy
          rcases List.mem_cons.mp hy with hyh | hyl
          · rw [hyh]
            exact hmax h (List.mem_cons_self _ _)
          · rcases List.mem_cons.mp hyl with hyx | hyt
            · rw [hyx]
              calc x.length ≤ h.length := hlt
                _ ≤ _ := hmax h (List.mem_cons_self _ _)
            · exact hmax y (List.mem_cons_of_mem _ hyt)

/-- C6: for every HTML input with at least one script block, the selected
block is a block of maximal character length, and the first such block in
document order (stable `max` semantics); in particular, on a document
with blocks of lengths 10, 50, 30 the 50-length block is selected. -/
theorem C6_selects_longest_first :
    (∀ (html : String) (b : List Char),
        get_longest_script_seq html.data = Except.ok b →
        b ∈ findScripts html.data ∧
        (∀ x ∈ findScripts html.data, x.length ≤ b.length) ∧
        ∃ l1 l2, findScripts html.data = l1 ++ b :: l2 ∧ ∀ x ∈ l1, x.length < b.length) ∧
    get_longest_script_seq htmlThreeBlocks.data = Except.ok block50 := by
  constructor
  · intro html b hb
    unfold get_longest_script_seq at hb
    cases hl : findScripts html.data with
    | nil =>
      rw [hl] at hb
      simp [pyMax] at hb
    | cons h t =>
      rw [hl] at hb
      simp only [pyMax] at hb
      injection hb with hbeq
      obtain ⟨l1, l2, hdec, hsmall, hmax⟩ := pyMaxFold_spec t h
      rw [hbeq] at hdec hsmall hmax
      refine ⟨?_, hmax, l1, l2, hdec, hsmall⟩
      rw [hdec]
      exact List.mem_append.mpr (Or.inr (List.mem_cons_self _ _))
  · rfl

/-- C6 witness: the three-block document instantiation. -/
theorem C6_witness :
    block50 ∈ findScripts htmlThreeBlocks.data ∧
    (∀ x ∈ findScripts htmlThreeBlocks.data, x.length ≤ block50.length) ∧
    ∃ l1 l2, findScripts htmlThreeBlocks.data = l1 ++ block50 :: l2 ∧
      ∀ x ∈ l1, x.length < block50.length :=
  C6_selects_longest_first.1 htmlThreeBlocks block50 C6_selects_longest_first.2

/-- C3 counterexample: on HTML with zero script blocks the pipeline fails
with the uncaught `ValueError` of `max()` on an empty sequence, whose
message is not `no script blocks found`. -/
theorem C3_counterexample :
    extract "hello" = Except.error "ValueError: max() arg is an empty sequence" ∧
    "ValueError: max() arg is an empty sequence" ≠ "no script blocks found" :=
  ⟨rfl, by decide⟩

/-- C3 amended: for every HTML input with zero script blocks, extraction
fails (uncaught `ValueError` from `max` on the empty match list) and no
partial extraction result is produced; the error is not an
`ExtractionError` with message `no script blocks found`. -/
theorem C3_no_scripts_raises_valueerror :
    ∀ html : String, findScripts html.data = [] →
      extract html = Except.error "ValueError: max() arg is an empty sequence" := by
  intro html h
  have h1 : get_longest_script_seq html.data =
      Except.error "ValueError: max() arg is an empty sequence" := by
    unfold get_longest_script_seq
    rw [h]
    rfl
  unfold extract
  rw [h1]

/-- C3 witness: the literal `hello` document has no script block. -/
theorem C3_witness :
    findScripts "hello".data = [] ∧
    extract "hello" = Except.error "ValueError: max() arg is an empty sequence" :=
  ⟨rfl, C3_no_scripts_raises_valueerror "hello" rfl⟩

/-- Splitting on an absent separator returns the whole string as the only
part. -/
theorem splitOnSubF_none (n : Nat) (sep s : List Char) (h : firstOccur sep s = none) :
    splitOnSubF (n + 1) sep s = [s] := by
  unfold splitOnSubF
  rw [h]

/-- C10: when the longest line of a script block contains no occurrence of
the delimiter `' = '`, the literal-isolation step raises nothing and
returns the empty string. -/
theorem C10_no_assignment_yields_empty :
    ∀ sc : List Char,
      containsSub eqSep (longestLineOf (splitNL sc)) = false →
      get_dict_from_script_seq sc = [] := by
  intro sc h
  unfold containsSub at h
  have hfo : firstOccur eqSep (longestLineOf (splitNL sc)) = none := by
    cases hx : firstOccur eqSep (longestLineOf (splitNL sc)) with
    | none => rfl
    | some i =>
      rw [hx] at h
      simp at h
  have hsplit : splitEq (longestLineOf (splitNL sc)) = [longestLineOf (splitNL sc)] :=
    splitOnSubF_none _ _ _ hfo
  show (List.intercalate eqSep ((splitEq (longestLineOf (splitNL sc))).drop 1)).dropLast = []
  rw [hsplit]
  rfl

/-- C10 witness: a block whose longest line `ab`/`cd` has no `' = '`. -/
theorem C10_witness :
    containsSub eqSep (longestLineOf (splitNL "ab\ncd".data)) = false ∧
    get_dict_from_script_seq "ab\ncd".data = [] :=
  ⟨rfl, C10_no_assignment_yields_empty "ab\ncd".data rfl⟩

/-- C1 counterexample: on a parsed top-level object lacking `description`,
the metadata step raises `KeyError: description` and the whole extraction
fails instead of succeeding with an empty-string field. -/
theorem C1_counterexample :
    getMetadata rawNoDesc = Except.error (keyErr "description") ∧
    extract htmlNoDesc = Except.error "KeyError: description" :=
  ⟨rfl, rfl⟩

/-- C1 amended: absence of `description`, of `external_urls`, or of
`spotify` under `external_urls` makes the metadata step (and hence the
extraction) fail with a `KeyError` naming the missing key; no empty-string
default is produced. -/
theorem C1_missing_metadata_fails :
    ∀ o : List (String × Jval),
      (lookupLast o "description" = none →
        getMetadata (Jval.jobj o) = Except.error (keyErr "description")) ∧
      (∀ d, lookupLast o "description" = some d → lookupLast o "external_urls" = none →
        getMetadata (Jval.jobj o) = Except.error (keyErr "external_urls")) ∧
      (∀ d e, lookupLast o "description" = some d →
        lookupLast o "external_urls" = some (Jval.jobj e) → lookupLast e "spotify" = none →
        getMetadata (Jval.jobj o) = Except.error (keyErr "spotify")) := by
  intro o
  refine ⟨?_, ?_, ?_⟩
  · intro h
    have hj : jGet (Jval.jobj o) "description" = Except.error (keyErr "description") := by
      simp only [jGet, h]
    unfold getMetadata
    rw [hj]
  · intro d hd he
    have hj1 : jGet (Jval.jobj o) "description" = Except.ok d := by
      simp only [jGet, hd]
    have hj2 : jGet (Jval.jobj o) "external_urls" = Except.error (keyErr "external_urls") := by
      simp only [jGet, he]
    unfold getMetadata
    simp only [hj1, hj2]
  · intro d e hd he hsp
    have hj1 : jGet (Jval.jobj o) "description" = Except.ok d := by
      simp only [jGet, hd]
    have hj2 : jGet (Jval.jobj o) "external_urls" = Except.ok (Jval.jobj e) := by
      simp only [jGet, he]
    have hj3 : jGet (Jval.jobj e) "spotify" = Except.error (keyErr "spotify") := by
      simp only [jGet, hsp]
    unfold getMetadata
    simp only [hj1, hj2, hj3]

/-- C1 witness: a blob without `description`, and a blob whose
`external_urls` object lacks `spotify`. -/
theorem C1_witness :
    getMetadata (Jval.jobj [("tracks", Jval.jobj [])]) =
      Except.error (keyErr "description") ∧
    getMetadata (Jval.jobj [("description", Jval.jstr "d"), ("external_urls", Jval.jobj [])]) =
      Except.error (keyErr "spotify") :=
  ⟨(C1_missing_metadata_fails [("tracks", Jval.jobj [])]).1 rfl,
   (C1_missing_metadata_fails
      [("description", Jval.jstr "d"), ("external_urls", Jval.jobj [])]).2.2
     (Jval.jstr "d") [] rfl rfl rfl⟩

/-- C9: extraction is deterministic and pure — its result is independent
of the ambient logger state the debug lines are appended to, and equals
the pure pipeline function of the input string, so two runs on identical
input yield identical tracks and metadata. -/
theorem C9_deterministic_and_pure :
    ∀ (html : String) (logA logB : List String),
      (extractLog html logA).1 = (extractLog html logB).1 ∧
      (extractLog html logA).1 = extract html := by
  intro html logA logB
  unfold extractLog extract get_longest_script_seq
  cases pyMax (findScripts html.data) with
  | none => exact ⟨rfl, rfl⟩
  | some sc => exact ⟨rfl, rfl⟩

/-- C8: on the end-to-end blob embedded in a script tag the pipeline
extracts exactly one track `A`/`C`/`B` with metadata `d`/`u`, and
plain-output mode prints exactly the header line and `A | C | B` while
issuing no external-service call, whatever the oracle, login state or
credential options. -/
theorem C8_plain_output :
    extract htmlOneTrack = Except.ok (playlistOneTrack, (Jval.jstr "d", Jval.jstr "u")) ∧
    ∀ (oracle : String → List String) (loginOk : Bool) (pid : String)
      (g_user g_pass nm : Option String),
      pymain htmlOneTrack true g_user g_pass nm loginOk oracle pid =
        Except.ok (["TRACK | ARTIST | ALBUM", "A | C | B"], []) :=
  ⟨rfl, fun _ _ _ _ _ _ => rfl⟩

/-- The append-accumulator fold of the search loop is a map. -/
theorem foldl_append_eq_map {α β : Type} (f : α → β) :
    ∀ (l : List α) (acc : List β), l.foldl (fun a t => a ++ [f t]) acc = acc ++ l.map f := by
  intro l
  induction l with
  | nil => intro acc; simp
  | cons x t ih =>
    intro acc
    simp only [List.foldl_cons, List.map_cons]
    rw [ih]
    simp

/-- The `song_id_list` loop records one (possibly absent) store id per
track, in source order. -/
theorem song_id_list_eq_map (oracle : String → List String) (tracks : List TrackT) :
    song_id_list oracle tracks = tracks.map (fun t => gmusic_search oracle (mkQuery t)) := by
  unfold song_id_list
  rw [foldl_append_eq_map (fun t => gmusic_search oracle (mkQuery t)) tracks []]
  rfl

/-- C5: a track whose search returns zero hits is recorded with an absent
store id, the loop does not abort — the id list keeps one entry per track —
and every track (in particular every later one) still gets its own search
result recorded at its source position. -/
theorem C5_miss_recorded_loop_continues :
    ∀ (tracks : List TrackT) (oracle : String → List String) (i : Nat) (hi : i < tracks.length),
      oracle (mkQuery (tracks.get ⟨i, hi⟩)) = [] →
      (song_id_list oracle tracks).length = tracks.length ∧
      (song_id_list oracle tracks).get? i = some none ∧
      (∀ (j : Nat) (hj : j < tracks.length),
        (song_id_list oracle tracks).get? j =
          some (gmusic_search oracle (mkQuery (tracks.get ⟨j, hj⟩)))) := by
  intro tracks oracle i hi hmiss
  rw [song_id_list_eq_map]
  refine ⟨by simp, ?_, ?_⟩
  · rw [List.get?_map, List.get?_eq_get hi]
    show some (gmusic_search oracle (mkQuery (tracks.get ⟨i, hi⟩))) = some none
    unfold gmusic_search
    rw [hmiss]
    rfl
  · intro j hj
    rw [List.get?_map, List.get?_eq_get hj]
    rfl

/-- C5 witness: with the two-track playlist and the miss/hit oracle, the
miss is recorded as an absent id at position 0 and the later track is
still searched and recorded at position 1. -/
theorem C5_witness :
    (song_id_list cexOracle cexTracks).length = cexTracks.length ∧
    (song_id_list cexOracle cexTracks).get? 0 = some none ∧
    (song_id_list cexOracle cexTracks).get? 1 =
      some (gmusic_search cexOracle (mkQuery (cexTracks.get ⟨1, by decide⟩))) := by
  have h := C5_miss_recorded_loop_continues cexTracks cexOracle 0 (by decide) rfl
  exact ⟨h.1, h.2.1, h.2.2 1 (by decide)⟩

/-- The last element of a list of the shape `x :: (A ++ [c, d])`. -/
theorem getLast?_cons_append_pair {α : Type} (x : α) (A : List α) (c d : α) :
    (x :: (A ++ [c, d])).getLast? = some d := by
  have hsh : x :: (A ++ [c, d]) = (x :: A ++ [c]) ++ [d] := by simp
  rw [hsh, List.getLast?_concat]

/-- C2 counterexample: with one missed and one matched track, the payload
handed to the single `add_songs_to_playlist` call is `[None, X]` — it
contains a `None` placeholder for the missed track and is not the
matched-ids-only list. -/
theorem C2_counterexample :
    song_id_list cexOracle cexTracks = [none, some "X"] ∧
    none ∈ song_id_list cexOracle cexTracks ∧
    song_id_list cexOracle cexTracks ≠ [some "X"] ∧
    (gmusicCalls cexOracle cexTracks "u" "p" "nm" (Jval.jstr "d", Jval.jstr "url") "pid").getLast? =
      some (GCall.addSongs "pid" [none, some "X"]) := by
  refine ⟨rfl, ?_, ?_, rfl⟩
  · rw [show song_id_list cexOracle cexTracks = [none, some "X"] from rfl]
    simp
  · rw [show song_id_list cexOracle cexTracks = [none, some "X"] from rfl]
    decide

/-- C2 amended: the single batch add call receives one entry per source
track in source order — the matched store id where the search hit, and a
`None` placeholder where it missed; absent ids are not skipped. -/
theorem C2_add_call_payload :
    ∀ (oracle : String → List String) (tracks : List TrackT) (u p nm : String)
      (meta : Jval × Jval) (pid : String),
      song_id_list oracle tracks = tracks.map (fun t => gmusic_search oracle (mkQuery t)) ∧
      (gmusicCalls oracle tracks u p nm meta pid).getLast? =
        some (GCall.addSongs pid (song_id_list oracle tracks)) := by
  intro oracle tracks u p nm meta pid
  refine ⟨song_id_list_eq_map oracle tracks, ?_⟩
  unfold gmusicCalls
  rw [getLast?_cons_append_pair]

/-- Every successful run of the playlist loop yields exactly one tuple per
envelope, each built from the envelope at the same source position. -/
theorem playlistOf_spec :
    ∀ (items : List Jval) (pl : List TrackT),
      playlistOf items = Except.ok pl →
      pl.length = items.length ∧
      ∀ (i : Nat) (hi : i < items.length), ∃ hj : i < pl.length,
        trackOfItem (items.get ⟨i, hi⟩) = Except.ok (pl.get ⟨i, hj⟩) := by
  intro items
  induction items with
  | nil =>
    intro pl h
    injection h with h2
    rw [← h2]
    refine ⟨rfl, ?_⟩
    intro i hi
    exact absurd hi (by simp)
  | cons it t ih =>
    intro pl h
    simp only [playlistOf] at h
    cases h1 : trackOfItem it with
    | error e =>
      rw [h1] at h
      exact Except.noConfusion h
    | ok tr =>
      rw [h1] at h
      cases h2 : playlistOf t with
      | error e =>
        rw [h2] at h
        exact Except.noConfusion h
      | ok rest =>
        rw [h2] at h
        injection h with h3
        rw [← h3]
        obtain ⟨hlen, hidx⟩ := ih rest h2
        refine ⟨by simp [hlen], ?_⟩
        intro i hi
        cases i with
        | zero => exact ⟨Nat.succ_pos _, h1⟩
        | succ n =>
          have hn : n < t.length := Nat.lt_of_succ_lt_succ hi
          obtain ⟨hj, hht⟩ := hidx n hn
          exact ⟨Nat.succ_lt_succ hj, hht⟩

/-- C7: whenever the document has exactly one script block, its isolated
literal parses, and the pipeline succeeds, the extracted playlist has
exactly as many tracks as `tracks.items` and the tuple at every position
is the one built (with artists in source order) from the item at the same
position. -/
theorem C7_length_and_order :
    ∀ (html : String) (s : List Char) (raw : Jval) (pl : List TrackT),
      findScripts html.data = [s] →
      demjson_decode (get_dict_from_script_seq s) = Except.ok raw →
      extractTracks html = Except.ok pl →
      ∃ items, getItems raw = Except.ok items ∧ pl.length = items.length ∧
        ∀ (i : Nat) (hi : i < items.length), ∃ hj : i < pl.length,
          trackOfItem (items.get ⟨i, hi⟩) = Except.ok (pl.get ⟨i, hj⟩) := by
  intro html s raw pl hfind hdec hext
  have hs : get_longest_script_seq html.data = Except.ok s := by
    unfold get_longest_script_seq
    rw [hfind]
    rfl
  unfold extractTracks at hext
  simp only [hs] at hext
  simp only [hdec] at hext
  unfold walkTracks at hext
  cases hitems : getItems raw with
  | error e =>
    rw [hitems] at hext
    exact Except.noConfusion hext
  | ok items =>
    rw [hitems] at hext
    exact ⟨items, rfl, playlistOf_spec items pl hext⟩

/-- C7 witness: the one-track end-to-end document. -/
theorem C7_witness :
    ∃ items, getItems rawOneTrack = Except.ok items ∧ playlistOneTrack.length = items.length ∧
      ∀ (i : Nat) (hi : i < items.length), ∃ hj : i < playlistOneTrack.length,
        trackOfItem (items.get ⟨i, hi⟩) = Except.ok (playlistOneTrack.get ⟨i, hj⟩) :=
  C7_length_and_order htmlOneTrack scriptOneTrack rawOneTrack playlistOneTrack rfl rfl rfl

/-- The only outcomes of a subscript: a value, a `KeyError` naming the
key, or a `TypeError`. -/
theorem jGet_cases (v : Jval) (k : String) :
    (∃ w, jGet v k = Except.ok w) ∨ jGet v k = Except.error (keyErr k) ∨
    (∃ m, jGet v k = Except.error (typeErr m)) := by
  cases v with
  | jobj o =>
    cases hl : lookupLast o k with
    | some w => exact Or.inl ⟨w, by simp [jGet, hl]⟩
    | none => exact Or.inr (Or.inl (by simp [jGet, hl]))
  | jstr s => exact Or.inr (Or.inr ⟨_, rfl⟩)
  | jarr l => exact Or.inr (Or.inr ⟨_, rfl⟩)
  | jnull => exact Or.inr (Or.inr ⟨_, rfl⟩)
  | jbool b => exact Or.inr (Or.inr ⟨_, rfl⟩)
  | jnum n => exact Or.inr (Or.inr ⟨_, rfl⟩)

/-- A failed subscript raises a `KeyError` naming a single key or a
`TypeError`. -/
theorem jGet_error_shape (v : Jval) (k e : String) (h : jGet v k = Except.error e) :
    (∃ k2, e = keyErr k2) ∨ (∃ m, e = typeErr m) := by
  rcases jGet_cases v k with ⟨w, hw⟩ | hk | ⟨m, hm⟩
  · rw [h] at hw
    exact Except.noConfusion hw
  · rw [h] at hk
    injection hk with h2
    exact Or.inl ⟨k, h2⟩
  · rw [h] at hm
    injection hm with h2
    exact Or.inr ⟨m, h2⟩

/-- A failed iteration raises a `TypeError`. -/
theorem pyIter_error_shape (v : Jval) (e : String) (h : pyIter v = Except.error e) :
    ∃ m, e = typeErr m := by
  cases v with
  | jarr l => exact Except.noConfusion h
  | jstr s => exact Except.noConfusion h
  | jobj o => exact Except.noConfusion h
  | jnull => injection h with h2; exact ⟨_, h2.symm⟩
  | jbool b => injection h with h2; exact ⟨_, h2.symm⟩
  | jnum n => injection h with h2; exact ⟨_, h2.symm⟩

/-- A failed join raises a `TypeError`. -/
theorem joinCommaFrom_error_shape :
    ∀ (l : List Jval) (i : Nat) (e : String), joinCommaFrom i l = Except.error e →
      ∃ m, e = typeErr m := by
  intro l
  induction l with
  | nil =>
    intro i e h
    exact Except.noConfusion h
  | cons x t ih =>
    intro i e h
    simp only [joinCommaFrom] at h
    cases x with
    | jstr s =>
      cases t with
      | nil => exact Except.noConfusion h
      | cons y t2 =>
        cases h2 : joinCommaFrom (i+1) (y :: t2) with
        | error e2 =>
          rw [h2] at h
          injection h with h3
          exact (h3 ▸ ih (i+1) e2 h2)
        | ok r =>
          rw [h2] at h
          exact Except.noConfusion h
    | jnull => injection h with h2; exact ⟨_, h2.symm⟩
    | jbool b => injection h with h2; exact ⟨_, h2.symm⟩
    | jnum n => injection h with h2; exact ⟨_, h2.symm⟩
    | jarr l2 => injection h with h2; exact ⟨_, h2.symm⟩
    | jobj o => injection h with h2; exact ⟨_, h2.symm⟩

/-- A failed artist-name collection raises a `KeyError` naming a single
key or a `TypeError`. -/
theorem namesOfArtists_error_shape :
    ∀ (l : List Jval) (e : String), namesOfArtists l = Except.error e →
      (∃ k2, e = keyErr k2) ∨ (∃ m, e = typeErr m) := by
  intro l
  induction l with
  | nil =>
    intro e h
    exact Except.noConfusion h
  | cons a t ih =>
    intro e h
    simp only [namesOfArtists] at h
    cases h1 : jGet a "name" with
    | error e1 =>
      rw [h1] at h
      injection h with h2
      exact h2 ▸ jGet_error_shape a "name" e1 h1
    | ok n =>
      rw [h1] at h
      cases h2 : namesOfArtists t with
      | error e2 =>
        rw [h2] at h
        injection h with h3
        exact h3 ▸ ih e2 h2
      | ok rest =>
        rw [h2] at h
        exact Except.noConfusion h

/-- A failed per-item walk raises a `KeyError` naming a single key or a
`TypeError`. -/
theorem trackOfItem_error_shape :
    ∀ (item : Jval) (e : String), trackOfItem item = Except.error e →
      (∃ k2, e = keyErr k2) ∨ (∃ m, e = typeErr m) := by
  intro item e h
  simp only [trackOfItem] at h
  cases h1 : jGet item "track" with
  | error e1 =>
    simp only [h1] at h
    injection h with hx
    exact hx ▸ jGet_error_shape item "track" e1 h1
  | ok tr =>
    simp only [h1] at h
    cases h2 : jGet tr "name" with
    | error e2 =>
      simp only [h2] at h
      injection h with hx
      exact hx ▸ jGet_error_shape tr "name" e2 h2
    | ok trackName =>
      simp only [h2] at h
      cases h3 : jGet tr "album" with
      | error e3 =>
        simp only [h3] at h
        injection h with hx
        exact hx ▸ jGet_error_shape tr "album" e3 h3
      | ok alb =>
        simp only [h3] at h
        cases h4 : jGet alb "name" with
        | error e4 =>
          simp only [h4] at h
          injection h with hx
          exact hx ▸ jGet_error_shape alb "name" e4 h4
        | ok albumName =>
          simp only [h4] at h
          cases h5 : jGet tr "artists" with
          | error e5 =>
            simp only [h5] at h
            injection h with hx
            exact hx ▸ jGet_error_shape tr "artists" e5 h5
          | ok artistsV =>
            simp only [h5] at h
            cases h6 : pyIter artistsV with
            | error e6 =>
              simp only [h6] at h
              injection h with hx
              exact hx ▸ Or.inr (pyIter_error_shape artistsV e6 h6)
            | ok envs =>
              simp only [h6] at h
              cases h7 : namesOfArtists envs with
              | error e7 =>
                simp only [h7] at h
                injection h with hx
                exact hx ▸ namesOfArtists_error_shape envs e7 h7
              | ok names =>
                simp only [h7] at h
                cases h8 : joinCommaFrom 0 names with
                | error e8 =>
                  simp only [h8] at h
                  injection h with hx
                  exact hx ▸ Or.inr (joinCommaFrom_error_shape names 0 e8 h8)
                | ok joined =>
                  simp only [h8] at h
                  exact Except.noConfusion h

/-- A failed playlist loop raises a `KeyError` naming a single key or a
`TypeError`. -/
theorem playlistOf_error_shape :
    ∀ (items : List Jval) (e : String), playlistOf items = Except.error e →
      (∃ k2, e = keyErr k2) ∨ (∃ m, e = typeErr m) := by
  intro items
  induction items with
  | nil =>
    intro e h
    exact Except.noConfusion h
  | cons it t ih =>
    intro e h
    simp only [playlistOf] at h
    cases h1 : trackOfItem it with
    | error e1 =>
      rw [h1] at h
      injection h with hx
      exact hx ▸ trackOfItem_error_shape it e1 h1
    | ok tr =>
      rw [h1] at h
      cases h2 : playlistOf t with
      | error e2 =>
        rw [h2] at h
        injection h with hx
        exact hx ▸ ih e2 h2
      | ok rest =>
        rw [h2] at h
        exact Except.noConfusion h

/-- A failed `tracks.items` access raises a `KeyError` naming a single key
or a `TypeError`. -/
theorem getItems_error_shape :
    ∀ (raw : Jval) (e : String), getItems raw = Except.error e →
      (∃ k2, e = keyErr k2) ∨ (∃ m, e = typeErr m) := by
  intro raw e h
  simp only [getItems] at h
  cases h1 : jGet raw "tracks" with
  | error e1 =>
    simp only [h1] at h
    injection h with hx
    exact hx ▸ jGet_error_shape raw "tracks" e1 h1
  | ok tracks =>
    simp only [h1] at h
    cases h2 : jGet tracks "items" with
    | error e2 =>
      simp only [h2] at h
      injection h with hx
      exact hx ▸ jGet_error_shape tracks "items" e2 h2
    | ok items =>
      simp only [h2] at h
      exact Or.inr (pyIter_error_shape items e h)

/-- A failed walk raises a `KeyError` naming a single key or a
`TypeError`. -/
theorem walkTracks_error_shape :
    ∀ (raw : Jval) (e : String), walkTracks raw = Except.error e →
      (∃ k2, e = keyErr k2) ∨ (∃ m, e = typeErr m) := by
  intro raw e h
  unfold walkTracks at h
  cases h1 : getItems raw with
  | error e1 =>
    rw [h1] at h
    injection h with hx
    exact hx ▸ getItems_error_shape raw e1 h1
  | ok items =>
    rw [h1] at h
    exact playlistOf_error_shape items e h

/-- C4 behaviour: whenever the walk fails, the error is a Python
`KeyError` carrying a single key name (never a full path) or a
`TypeError`; and a blob whose top-level dict lacks `tracks` makes the walk
fail with `KeyError: tracks`. -/
theorem C4_missing_key_behaviour :
    (∀ (raw : Jval) (e : String), walkTracks raw = Except.error e →
        (∃ k2, e = keyErr k2) ∨ (∃ m, e = typeErr m)) ∧
    (∀ o : List (String × Jval), lookupLast o "tracks" = none →
        walkTracks (Jval.jobj o) = Except.error (keyErr "tracks")) := by
  constructor
  · exact walkTracks_error_shape
  · intro o h
    have hj : jGet (Jval.jobj o) "tracks" = Except.error (keyErr "tracks") := by
      simp only [jGet, h]
    unfold walkTracks getItems
    rw [hj]

/-- C4 witness: the empty top-level dict. -/
theorem C4_witness :
    walkTracks (Jval.jobj []) = Except.error (keyErr "tracks") ∧
    ((∃ k2, keyErr "tracks" = keyErr k2) ∨ (∃ m, keyErr "tracks" = typeErr m)) :=
  ⟨C4_missing_key_behaviour.2 [] rfl,
   C4_missing_key_behaviour.1 (Jval.jobj []) (keyErr "tracks")
     (C4_missing_key_behaviour.2 [] rfl)⟩

/-- C4 counterexample: when `album` lacks `name` (the expected path
`album.name` missing one level deep) the walk fails with the bare
`KeyError: name`, whose message does not name the missing path
`album.name`. -/
theorem C4_counterexample :
    walkTracks rawNoAlbumName = Except.error "KeyError: name" ∧
    containsSub "album.name".data "KeyError: name".data = false :=
  ⟨rfl, rfl⟩
